import Mathlib

/-!
Verification of the drought-prediction pipeline of `model.py`.

The post-forecast pipeline is embedded shallowly: reservoir volumes are
rationals, pandas DataFrames become lists of structures whose fields carry the
DataFrame column names (`ds`, `yhat`, `yhat_adj`, `yhat_final`, ...), and the
module-level globals (`DF_ESCENARIOS`, `UMBRALES`, `Y_ULTIMO_REAL`, the trained
model) become an explicit `ModuleState` threaded through the orchestrator.
Python exceptions (`RuntimeError`, `ValueError`) become an `Except` result with
an explicit error type. The Prophet forecaster is the external collaborator of
the spec; it appears only as an opaque function field of `ModuleState`, since
every claim concerns what happens to its output.
-/

/-- Errors raised by `model.py`: the `RuntimeError` for an uninitialized
module, and the two `ValueError`s (unknown scenario, horizon out of range).
Each carries the offending value the Python message interpolates. -/
inductive ModelError where
  | noInicializado : ModelError
  | escenarioNoExiste (recibido : String) : ModelError
  | horizonteFueraDeRango (recibido : Int) : ModelError
deriving DecidableEq, Repr

instance {ε α : Type} [DecidableEq ε] [DecidableEq α] : DecidableEq (Except ε α)
  | .ok x, .ok y =>
    if h : x = y then .isTrue (by rw [h])
    else .isFalse (fun hc => h (Except.ok.inj hc))
  | .ok _, .error _ => .isFalse (fun hc => Except.noConfusion hc)
  | .error _, .ok _ => .isFalse (fun hc => Except.noConfusion hc)
  | .error e, .error f =>
    if h : e = f then .isTrue (by rw [h])
    else .isFalse (fun hc => h (Except.error.inj hc))

/-- One row of the base forecast DataFrame returned by
`generar_forecast_base`: columns `ds`, `yhat`, `yhat_lower`, `yhat_upper`.
The date `ds` is kept as its textual calendar form. -/
structure PuntoBase where
  ds : String
  yhat : ℚ
  yhat_lower : ℚ
  yhat_upper : ℚ
deriving DecidableEq, Repr

/-- Row after `aplicar_escenario`: the base columns plus the scenario-scaled
columns `yhat_adj`, `yhat_lower_adj`, `yhat_upper_adj`. -/
structure PuntoAjustado extends PuntoBase where
  yhat_adj : ℚ
  yhat_lower_adj : ℚ
  yhat_upper_adj : ℚ
deriving DecidableEq, Repr

/-- Row after `ajustar_por_nivel_usuario`: adds the calibrated columns
`yhat_final`, `yhat_lower_final`, `yhat_upper_final`. -/
structure PuntoFinal extends PuntoAjustado where
  yhat_final : ℚ
  yhat_lower_final : ℚ
  yhat_upper_final : ℚ
deriving DecidableEq, Repr

/-- Row after `clasificar_riesgo`: adds the boolean columns `es_sequia`,
`es_bajo` and the label column `situacion`. -/
structure PuntoClasificado extends PuntoFinal where
  es_sequia : Bool
  es_bajo : Bool
  situacion : String
deriving DecidableEq, Repr

/-- One entry of the `prediccion_mensual` list built by
`construir_respuesta_api`. -/
structure EntradaMensual where
  fecha : String
  nivel : ℚ
  situacion : String
  es_sequia : Bool
  es_nivel_bajo : Bool
deriving DecidableEq, Repr

/-- The JSON-serializable response dictionary built by
`construir_respuesta_api`. -/
structure Respuesta where
  escenario : String
  horizonte_meses : Int
  nivel_actual_usuario : Option ℚ
  riesgo_global : String
  sequia_probable : Bool
  prediccion_mensual : List EntradaMensual
deriving DecidableEq, Repr

/-- One row of the `DF_ESCENARIOS` DataFrame. -/
structure Escenario where
  escenario : String
  factor_volumen : ℚ
  descripcion : String
deriving DecidableEq, Repr

/-- The four climate scenarios defined by `inicializar_modulo` (step 5). -/
def escenarios_definidos : List Escenario :=
  [ { escenario := "normal", factor_volumen := 1,
      descripcion := "Condiciones normales de precipitación" },
    { escenario := "seco", factor_volumen := 9 / 10,
      descripcion := "Condiciones secas (reducción 10%)" },
    { escenario := "muy_seco", factor_volumen := 8 / 10,
      descripcion := "Sequía severa (reducción 20%)" },
    { escenario := "humedo", factor_volumen := 11 / 10,
      descripcion := "Condiciones húmedas (aumento 10%)" } ]

/-- The module's global state after import: whether `MODEL` and
`DF_ANUAL_PRED` are set, the optional `DF_ESCENARIOS` table, the `UMBRALES`
entries, `Y_ULTIMO_REAL`, and the trained Prophet forecaster
(`generar_forecast_base`), kept opaque as the external collaborator. -/
structure ModuleState where
  modelo_cargado : Bool
  df_escenarios : Option (List Escenario)
  umbral_bajo : ℚ
  umbral_sequia : ℚ
  y_ultimo_real : ℚ
  generar_forecast_base : Int → List PuntoBase

/-- Linear-interpolated percentile of a sorted list, the `np.percentile`
method used by `calcular_umbrales`: the virtual position is `q/100 * (n-1)`
and the value is interpolated between the neighbouring order statistics. -/
def interpolar (s : List ℚ) (pos : ℚ) : ℚ :=
  let i : ℕ := (⌊pos⌋).toNat
  let g : ℚ := pos - (⌊pos⌋ : ℚ)
  let lo := s.getD i 0
  let hi := s.getD (min (i + 1) (s.length - 1)) 0
  lo + g * (hi - lo)

/-- `np.percentile(serie, q)` with the default linear interpolation: sort the
data, then interpolate at virtual position `q/100 * (n-1)`. -/
def percentil (serie : List ℚ) (q : ℚ) : ℚ :=
  let s := serie.insertionSort (· ≤ ·)
  interpolar s (q / 100 * ((s.length : ℚ) - 1))

/-- The `UMBRALES` dictionary computed by `calcular_umbrales`. -/
structure Umbrales where
  umbral_bajo : ℚ
  umbral_sequia : ℚ
  media : ℚ
deriving DecidableEq, Repr

/-- `calcular_umbrales`: 25th percentile (low level), 10th percentile (severe
drought) and the historical mean. -/
def calcular_umbrales (serie_y : List ℚ) : Umbrales :=
  { umbral_bajo := percentil serie_y 25
    umbral_sequia := percentil serie_y 10
    media := serie_y.sum / (serie_y.length : ℚ) }

/-- `validar_escenario`: `RuntimeError` when `DF_ESCENARIOS` is still `None`,
`ValueError` naming the received scenario when it is not in the table,
`True` otherwise. -/
def validar_escenario (df_escenarios : Option (List Escenario))
    (escenario : String) : Except ModelError Bool :=
  match df_escenarios with
  | none => .error .noInicializado
  | some df =>
    let escenarios_validos := df.map (·.escenario)
    if escenario ∈ escenarios_validos then .ok true
    else .error (.escenarioNoExiste escenario)

/-- `aplicar_escenario`: validate the scenario, look up its
`factor_volumen` (first matching row, as `values[0]` does), and multiply the
three forecast columns by it on a copy of the input. -/
def aplicar_escenario (df_escenarios : Option (List Escenario))
    (pred_df : List PuntoBase) (escenario : String) :
    Except ModelError (List PuntoAjustado) :=
  match validar_escenario df_escenarios escenario with
  | .error e => .error e
  | .ok _ =>
    let factor := (((df_escenarios.getD []).filter
        (fun e => e.escenario == escenario)).map (·.factor_volumen)).headD 0
    .ok (pred_df.map fun p =>
      { toPuntoBase := p
        yhat_adj := p.yhat * factor
        yhat_lower_adj := p.yhat_lower * factor
        yhat_upper_adj := p.yhat_upper * factor })

/-- The delta computed by `ajustar_por_nivel_usuario`: zero when the user
level is absent, otherwise user level minus last real value. -/
def calcular_delta (y_ultimo_real : ℚ) (nivel_actual_usuario : Option ℚ) : ℚ :=
  match nivel_actual_usuario with
  | none => 0
  | some nivel => nivel - y_ultimo_real

/-- `ajustar_por_nivel_usuario`: add the delta uniformly to the three
scenario-adjusted columns, producing the `_final` columns. -/
def ajustar_por_nivel_usuario (pred_df : List PuntoAjustado)
    (y_ultimo_real : ℚ) (nivel_actual_usuario : Option ℚ) : List PuntoFinal :=
  let delta := calcular_delta y_ultimo_real nivel_actual_usuario
  pred_df.map fun p =>
    { toPuntoAjustado := p
      yhat_final := p.yhat_adj + delta
      yhat_lower_final := p.yhat_lower_adj + delta
      yhat_upper_final := p.yhat_upper_adj + delta }

/-- The nested `asignar_situacion` of `clasificar_riesgo`, reading the two
boolean columns. -/
def asignar_situacion (es_sequia es_bajo : Bool) : String :=
  if es_sequia then "Sequía severa"
  else if es_bajo then "Nivel bajo"
  else "Normal"

/-- Per-row classification of `clasificar_riesgo`: the `es_sequia` and
`es_bajo` boolean columns and the `situacion` label. -/
def clasificar_punto (umbral_bajo umbral_sequia : ℚ) (p : PuntoFinal) :
    PuntoClasificado :=
  let es_sequia := decide (p.yhat_final < umbral_sequia)
  let es_bajo := decide (umbral_sequia ≤ p.yhat_final) &&
    decide (p.yhat_final < umbral_bajo)
  { toPuntoFinal := p
    es_sequia := es_sequia
    es_bajo := es_bajo
    situacion := asignar_situacion es_sequia es_bajo }

/-- `meses_criticos`: count of rows with `es_sequia` or `es_bajo`. -/
def meses_criticos (resultado : List PuntoClasificado) : ℕ :=
  (resultado.filter (fun p => p.es_sequia || p.es_bajo)).length

/-- The final `if`-chain of `clasificar_riesgo` over the critical
percentage. -/
def riesgo_global_desde_porcentaje (porcentaje : ℚ) : String :=
  if porcentaje > 50 then "CRÍTICO"
  else if porcentaje > 30 then "ALTO"
  else if porcentaje > 10 then "MODERADO"
  else "BAJO"

/-- `clasificar_riesgo`: classify each row, then derive the global risk from
the percentage of critical months (0 when the sequence is empty). -/
def clasificar_riesgo (pred_df : List PuntoFinal)
    (umbral_bajo umbral_sequia : ℚ) : List PuntoClasificado × String :=
  let resultado := pred_df.map (clasificar_punto umbral_bajo umbral_sequia)
  let total_meses := resultado.length
  let porcentaje : ℚ :=
    if total_meses > 0 then
      ((meses_criticos resultado : ℚ) / (total_meses : ℚ)) * 100
    else 0
  (resultado, riesgo_global_desde_porcentaje porcentaje)

/-- Python's `round(x, 2)` on the exact rational value. -/
def redondear2 (x : ℚ) : ℚ := ((round (x * 100) : ℤ) : ℚ) / 100

/-- `pandas.DataFrame.head(n)`: the first `n` rows for `n ≥ 0`, all but the
last `|n|` rows for negative `n`. -/
def pandasHead {α : Type} (n : Int) (l : List α) : List α :=
  if 0 ≤ n then l.take n.toNat else l.take (l.length - n.natAbs)

/-- `construir_respuesta_api`: `sequia_probable` from the global risk, and at
most `horizonte_meses` monthly entries with the rounded calibrated level. -/
def construir_respuesta_api (escenario : String) (horizonte_meses : Int)
    (nivel_actual_usuario : Option ℚ) (pred_df : List PuntoClasificado)
    (riesgo_global : String) : Respuesta :=
  let sequia_probable := riesgo_global ∈ ["ALTO", "CRÍTICO"]
  let prediccion_mensual := (pandasHead horizonte_meses pred_df).map fun row =>
    { fecha := row.ds
      nivel := redondear2 row.yhat_final
      situacion := row.situacion
      es_sequia := row.es_sequia
      es_nivel_bajo := row.es_bajo }
  { escenario := escenario
    horizonte_meses := horizonte_meses
    nivel_actual_usuario := nivel_actual_usuario
    riesgo_global := riesgo_global
    sequia_probable := decide sequia_probable
    prediccion_mensual := prediccion_mensual }

/-- `predecir_escenario`: the orchestrator. Checks initialization first, then
the scenario, then the horizon bounds, and only then runs the pipeline
forecast → scenario → calibration → classification → response. -/
def predecir_escenario (st : ModuleState) (horizonte_meses : Int)
    (escenario : String) (nivel_actual_usuario : Option ℚ) :
    Except ModelError Respuesta :=
  if st.modelo_cargado = false then .error .noInicializado
  else
    match validar_escenario st.df_escenarios escenario with
    | .error e => .error e
    | .ok _ =>
      if horizonte_meses < 1 ∨ horizonte_meses > 180 then
        .error (.horizonteFueraDeRango horizonte_meses)
      else
        match aplicar_escenario st.df_escenarios
            (st.generar_forecast_base horizonte_meses) escenario with
        | .error e => .error e
        | .ok forecast_adj =>
          let forecast_fin := ajustar_por_nivel_usuario forecast_adj
            st.y_ultimo_real nivel_actual_usuario
          let rc := clasificar_riesgo forecast_fin st.umbral_bajo
            st.umbral_sequia
          .ok (construir_respuesta_api escenario horizonte_meses
            nivel_actual_usuario rc.1 rc.2)

/-- The single-period base forecast of the end-to-end scenario of the spec:
central 700, lower 680, upper 720. -/
def prediccion_base_demo : List PuntoBase :=
  [{ ds := "2025-11-01", yhat := 700, yhat_lower := 680, yhat_upper := 720 }]

/-- An initialized module state with thresholds severe = 600, low = 650 and
last real value 650.5, whose forecaster returns the demo base forecast. -/
def estado_demo : ModuleState :=
  { modelo_cargado := true
    df_escenarios := some escenarios_definidos
    umbral_bajo := 650
    umbral_sequia := 600
    y_ultimo_real := 1301 / 2
    generar_forecast_base := fun _ => prediccion_base_demo }

/-- The demo forecast point after `aplicar_escenario` with the "seco"
factor 0.9: central 630, lower 612, upper 648. -/
def punto_adj_demo : PuntoAjustado :=
  { ds := "2025-11-01", yhat := 700, yhat_lower := 680, yhat_upper := 720
    yhat_adj := 630, yhat_lower_adj := 612, yhat_upper_adj := 648 }

/-- The demo point after calibration with delta 9.5. -/
def punto_final_demo : PuntoFinal :=
  { toPuntoAjustado := punto_adj_demo
    yhat_final := 1279 / 2, yhat_lower_final := 1243 / 2
    yhat_upper_final := 1315 / 2 }

/-- The demo point after classification: "Nivel bajo". -/
def punto_clas_demo : PuntoClasificado :=
  { toPuntoFinal := punto_final_demo
    es_sequia := false, es_bajo := true, situacion := "Nivel bajo" }

/-- The response of the end-to-end scenario. -/
def respuesta_demo : Respuesta :=
  { escenario := "seco"
    horizonte_meses := 1
    nivel_actual_usuario := some 660
    riesgo_global := "CRÍTICO"
    sequia_probable := true
    prediccion_mensual := [{ fecha := "2025-11-01"
                             nivel := 1279 / 2
                             situacion := "Nivel bajo"
                             es_sequia := false
                             es_nivel_bajo := true }] }

theorem factor_seco_eq :
    ((((some escenarios_definidos : Option (List Escenario)).getD []).filter
      (fun e => e.escenario == "seco")).map (·.factor_volumen)).headD 0 =
    9 / 10 := rfl

theorem aplicar_escenario_demo :
    aplicar_escenario (some escenarios_definidos) prediccion_base_demo
      "seco" = .ok [punto_adj_demo] := by
  have hval : validar_escenario (some escenarios_definidos) "seco" =
    .ok true := rfl
  rw [aplicar_escenario, hval]
  simp only [factor_seco_eq, prediccion_base_demo, List.map_cons, List.map_nil]
  norm_num [punto_adj_demo]

theorem ajustar_demo :
    ajustar_por_nivel_usuario [punto_adj_demo] (1301 / 2) (some 660) =
    [punto_final_demo] := by
  norm_num [ajustar_por_nivel_usuario, calcular_delta, punto_adj_demo,
    punto_final_demo]

theorem clasificar_demo :
    clasificar_riesgo [punto_final_demo] 650 600 =
    ([punto_clas_demo], "CRÍTICO") := by
  norm_num [clasificar_riesgo, clasificar_punto, meses_criticos,
    asignar_situacion, riesgo_global_desde_porcentaje, punto_final_demo,
    punto_clas_demo, punto_adj_demo, List.filter_cons]

theorem construir_demo :
    construir_respuesta_api "seco" 1 (some 660) [punto_clas_demo] "CRÍTICO" =
    respuesta_demo := by
  norm_num [construir_respuesta_api, redondear2, pandasHead, punto_clas_demo,
    punto_final_demo, punto_adj_demo, respuesta_demo]

/-- C1: end-to-end scenario. With thresholds severe = 600 and low = 650, last
historical value 650.5, a single-period base forecast with central 700.0,
scenario "seco" (factor 0.9) and user level 660.0: the scenario-adjusted
central is 630.0, the calibration delta is 9.5, the calibrated central is
639.5 and is classified "Nivel bajo", the global risk is "CRÍTICO" (1 of 1
months critical) and `sequia_probable` is true — both along the pure pipeline
and through the orchestrator `predecir_escenario`. -/
theorem c1_extremo_a_extremo :
    ((aplicar_escenario (some escenarios_definidos) prediccion_base_demo
        "seco").map (fun adj => adj.map (·.yhat_adj))) = .ok [630]
    ∧ calcular_delta (1301 / 2) (some 660) = 19 / 2
    ∧ ((aplicar_escenario (some escenarios_definidos) prediccion_base_demo
        "seco").map (fun adj =>
          let fin := ajustar_por_nivel_usuario adj (1301 / 2) (some 660)
          let rc := clasificar_riesgo fin 650 600
          construir_respuesta_api "seco" 1 (some 660) rc.1 rc.2)) =
      .ok respuesta_demo
    ∧ predecir_escenario estado_demo 1 "seco" (some 660) =
      .ok respuesta_demo := by
  have hval : validar_escenario (some escenarios_definidos) "seco" =
    .ok true := rfl
  refine ⟨?_, by norm_num [calcular_delta], ?_, ?_⟩
  · rw [aplicar_escenario_demo]
    norm_num [punto_adj_demo, Except.map]
  · rw [aplicar_escenario_demo]
    simp only [Except.map, ajustar_demo, clasificar_demo, construir_demo]
  · have hforecast : estado_demo.generar_forecast_base 1 =
      prediccion_base_demo := rfl
    have hmc : estado_demo.modelo_cargado = true := rfl
    have hdf : estado_demo.df_escenarios = some escenarios_definidos := rfl
    rw [predecir_escenario, hmc, hdf, hval, hforecast]
    norm_num [aplicar_escenario_demo, ajustar_demo]
    have hub : estado_demo.umbral_bajo = 650 := rfl
    have hus : estado_demo.umbral_sequia = 600 := rfl
    have hyu : estado_demo.y_ultimo_real = 1301 / 2 := rfl
    rw [hub, hus, hyu, ajustar_demo, clasificar_demo, construir_demo]

theorem clasificar_riesgo_fst (pred_df : List PuntoFinal)
    (umbral_bajo umbral_sequia : ℚ) :
    (clasificar_riesgo pred_df umbral_bajo umbral_sequia).1 =
    pred_df.map (clasificar_punto umbral_bajo umbral_sequia) := rfl

/-- C2: every classified period falls in exactly one of the three cases:
calibrated central below the severe threshold gives "Sequía severa" with
`es_sequia` and not `es_bajo`; between severe and low gives "Nivel bajo" with
`es_bajo` and not `es_sequia`; otherwise "Normal" with both flags false. The
three disjuncts pin all three output fields and are pairwise incompatible, so
the classification is mutually exclusive and exhaustive. -/
theorem c2_clasificacion_exclusiva_exhaustiva (pred_df : List PuntoFinal)
    (umbral_bajo umbral_sequia : ℚ) (c : PuntoClasificado)
    (hc : c ∈ (clasificar_riesgo pred_df umbral_bajo umbral_sequia).1) :
    (c.yhat_final < umbral_sequia ∧ c.situacion = "Sequía severa" ∧
      c.es_sequia = true ∧ c.es_bajo = false)
    ∨ (umbral_sequia ≤ c.yhat_final ∧ c.yhat_final < umbral_bajo ∧
      c.situacion = "Nivel bajo" ∧ c.es_sequia = false ∧ c.es_bajo = true)
    ∨ (umbral_sequia ≤ c.yhat_final ∧ umbral_bajo ≤ c.yhat_final ∧
      c.situacion = "Normal" ∧ c.es_sequia = false ∧ c.es_bajo = false) := by
  rw [clasificar_riesgo_fst] at hc
  obtain ⟨p, hp, rfl⟩ := List.mem_map.mp hc
  by_cases h1 : p.yhat_final < umbral_sequia
  · exact Or.inl (by simp [clasificar_punto, asignar_situacion, h1,
      not_le.mpr h1])
  · by_cases h2 : p.yhat_final < umbral_bajo
    · exact Or.inr (Or.inl (by simp [clasificar_punto, asignar_situacion,
        h1, h2, not_lt.mp h1]))
    · exact Or.inr (Or.inr (by simp [clasificar_punto, asignar_situacion,
        h1, h2, not_lt.mp h1, not_lt.mp h2]))

/-- A classified point used to instantiate the hypothesis-bearing theorems:
calibrated central 500, classified against thresholds low = 650 and
severe = 600. -/
def punto_final_500 : PuntoFinal :=
  { ds := "2025-11-01", yhat := 500, yhat_lower := 480, yhat_upper := 520
    yhat_adj := 500, yhat_lower_adj := 480, yhat_upper_adj := 520
    yhat_final := 500, yhat_lower_final := 480, yhat_upper_final := 520 }

/-- A second classified point: calibrated central 700, "Normal" against
thresholds low = 650 and severe = 600. -/
def punto_final_700 : PuntoFinal :=
  { ds := "2025-12-01", yhat := 700, yhat_lower := 680, yhat_upper := 720
    yhat_adj := 700, yhat_lower_adj := 680, yhat_upper_adj := 720
    yhat_final := 700, yhat_lower_final := 680, yhat_upper_final := 720 }

/-- Witness for C2 at the concrete point with calibrated central 500 and
thresholds low = 650, severe = 600: the theorem applies and its first case
(severe drought) is realized. -/
theorem c2_clasificacion_exclusiva_exhaustiva_witness :
    ((clasificar_punto 650 600 punto_final_500).yhat_final < 600 ∧
      (clasificar_punto 650 600 punto_final_500).situacion = "Sequía severa" ∧
      (clasificar_punto 650 600 punto_final_500).es_sequia = true ∧
      (clasificar_punto 650 600 punto_final_500).es_bajo = false)
    ∨ (600 ≤ (clasificar_punto 650 600 punto_final_500).yhat_final ∧
      (clasificar_punto 650 600 punto_final_500).yhat_final < 650 ∧
      (clasificar_punto 650 600 punto_final_500).situacion = "Nivel bajo" ∧
      (clasificar_punto 650 600 punto_final_500).es_sequia = false ∧
      (clasificar_punto 650 600 punto_final_500).es_bajo = true)
    ∨ (600 ≤ (clasificar_punto 650 600 punto_final_500).yhat_final ∧
      650 ≤ (clasificar_punto 650 600 punto_final_500).yhat_final ∧
      (clasificar_punto 650 600 punto_final_500).situacion = "Normal" ∧
      (clasificar_punto 650 600 punto_final_500).es_sequia = false ∧
      (clasificar_punto 650 600 punto_final_500).es_bajo = false) :=
  c2_clasificacion_exclusiva_exhaustiva [punto_final_500] 650 600
    (clasificar_punto 650 600 punto_final_500)
    (by rw [clasificar_riesgo_fst]
        exact List.mem_map_of_mem _ (List.mem_singleton_self _))

theorem clasificar_riesgo_snd (pred_df : List PuntoFinal)
    (umbral_bajo umbral_sequia : ℚ) :
    (clasificar_riesgo pred_df umbral_bajo umbral_sequia).2 =
    riesgo_global_desde_porcentaje
      (if 0 < pred_df.length then
        ((meses_criticos (pred_df.map
            (clasificar_punto umbral_bajo umbral_sequia)) : ℚ) /
          (pred_df.length : ℚ)) * 100
      else 0) := by
  simp only [clasificar_riesgo, List.length_map, gt_iff_lt]

theorem pct_gt_iff (k total cota : ℕ) (htotal : 0 < total) :
    ((cota : ℚ) < (k : ℚ) / (total : ℚ) * 100) ↔ cota * total < 100 * k := by
  have h : (0 : ℚ) < (total : ℚ) := by exact_mod_cast htotal
  rw [div_mul_eq_mul_div, lt_div_iff₀ h, mul_comm (k : ℚ) 100]
  exact_mod_cast Iff.rfl

/-- C3: the global risk is determined by the critical fraction
(critical months / total months × 100) through strict comparisons with 50, 30
and 10, so "CRÍTICO" holds iff more than half the months are critical, ties
at the boundaries fall to the lower-severity bucket (exactly 50% gives
"ALTO", exactly 30% gives "MODERADO", exactly 10% gives "BAJO"), and an empty
sequence gives "BAJO" with the fraction treated as 0. -/
theorem c3_riesgo_global_umbrales (pred_df : List PuntoFinal)
    (umbral_bajo umbral_sequia : ℚ) :
    ((clasificar_riesgo pred_df umbral_bajo umbral_sequia).2 = "CRÍTICO" ↔
      pred_df.length < 2 * meses_criticos
        ((clasificar_riesgo pred_df umbral_bajo umbral_sequia).1))
    ∧ ((clasificar_riesgo pred_df umbral_bajo umbral_sequia).2 = "ALTO" ↔
      2 * meses_criticos
          ((clasificar_riesgo pred_df umbral_bajo umbral_sequia).1) ≤
        pred_df.length
      ∧ 3 * pred_df.length < 10 * meses_criticos
          ((clasificar_riesgo pred_df umbral_bajo umbral_sequia).1))
    ∧ ((clasificar_riesgo pred_df umbral_bajo umbral_sequia).2 = "MODERADO" ↔
      10 * meses_criticos
          ((clasificar_riesgo pred_df umbral_bajo umbral_sequia).1) ≤
        3 * pred_df.length
      ∧ pred_df.length < 10 * meses_criticos
          ((clasificar_riesgo pred_df umbral_bajo umbral_sequia).1))
    ∧ ((clasificar_riesgo pred_df umbral_bajo umbral_sequia).2 = "BAJO" ↔
      10 * meses_criticos
          ((clasificar_riesgo pred_df umbral_bajo umbral_sequia).1) ≤
        pred_df.length)
    ∧ (pred_df.length = 0 →
      (clasificar_riesgo pred_df umbral_bajo umbral_sequia).2 = "BAJO")
    ∧ (0 < pred_df.length →
      2 * meses_criticos
          ((clasificar_riesgo pred_df umbral_bajo umbral_sequia).1) =
        pred_df.length →
      (clasificar_riesgo pred_df umbral_bajo umbral_sequia).2 = "ALTO")
    ∧ (0 < pred_df.length →
      10 * meses_criticos
          ((clasificar_riesgo pred_df umbral_bajo umbral_sequia).1) =
        3 * pred_df.length →
      (clasificar_riesgo pred_df umbral_bajo umbral_sequia).2 = "MODERADO")
    ∧ (10 * meses_criticos
          ((clasificar_riesgo pred_df umbral_bajo umbral_sequia).1) =
        pred_df.length →
      (clasificar_riesgo pred_df umbral_bajo umbral_sequia).2 = "BAJO") := by
  rw [clasificar_riesgo_fst, clasificar_riesgo_snd]
  have hkn : meses_criticos (pred_df.map
      (clasificar_punto umbral_bajo umbral_sequia)) ≤ pred_df.length := by
    have := List.length_filter_le
      (fun p => p.es_sequia || p.es_bajo)
      (pred_df.map (clasificar_punto umbral_bajo umbral_sequia))
    simpa [meses_criticos, List.length_map] using this
  generalize meses_criticos (pred_df.map
    (clasificar_punto umbral_bajo umbral_sequia)) = k at hkn ⊢
  generalize pred_df.length = n at hkn ⊢
  rcases Nat.eq_zero_or_pos n with h0 | hpos
  · subst h0
    have hk0 : k = 0 := Nat.le_zero.mp hkn
    subst hk0
    norm_num [riesgo_global_desde_porcentaje]
    refine ⟨by decide, by decide, by decide⟩
  · have h50 := pct_gt_iff k n 50 hpos
    have h30 := pct_gt_iff k n 30 hpos
    have h10 := pct_gt_iff k n 10 hpos
    push_cast at h50 h30 h10
    rw [if_pos hpos, riesgo_global_desde_porcentaje]
    split_ifs with ha hb hc
    · have ha' := h50.mp ha
      simp only [String.reduceEq]
      norm_num
      omega
    · have ha' : ¬50 * n < 100 * k := fun h => ha (h50.mpr h)
      have hb' := h30.mp hb
      simp only [String.reduceEq]
      norm_num
      omega
    · have ha' : ¬50 * n < 100 * k := fun h => ha (h50.mpr h)
      have hb' : ¬30 * n < 100 * k := fun h => hb (h30.mpr h)
      have hc' := h10.mp hc
      simp only [String.reduceEq]
      norm_num
      omega
    · have ha' : ¬50 * n < 100 * k := fun h => ha (h50.mpr h)
      have hb' : ¬30 * n < 100 * k := fun h => hb (h30.mpr h)
      have hc' : ¬10 * n < 100 * k := fun h => hc (h10.mpr h)
      simp only [String.reduceEq]
      norm_num
      omega

/-- Witness for C3 at a concrete two-period sequence with exactly one
critical month (50%): the boundary conjunct of the theorem yields "ALTO",
not "CRÍTICO". -/
theorem c3_riesgo_global_umbrales_witness :
    (clasificar_riesgo [punto_final_500, punto_final_700] 650 600).2 =
    "ALTO" := by
  apply (c3_riesgo_global_umbrales [punto_final_500, punto_final_700]
    650 600).2.2.2.2.2.1
  · norm_num
  · rw [clasificar_riesgo_fst]
    norm_num [meses_criticos, clasificar_punto, punto_final_500,
      punto_final_700, List.filter_cons]

theorem factor_normal_eq :
    ((((some escenarios_definidos : Option (List Escenario)).getD []).filter
      (fun e => e.escenario == "normal")).map (·.factor_volumen)).headD 0 =
    1 := rfl

theorem factor_muy_seco_eq :
    ((((some escenarios_definidos : Option (List Escenario)).getD []).filter
      (fun e => e.escenario == "muy_seco")).map (·.factor_volumen)).headD 0 =
    8 / 10 := rfl

theorem factor_humedo_eq :
    ((((some escenarios_definidos : Option (List Escenario)).getD []).filter
      (fun e => e.escenario == "humedo")).map (·.factor_volumen)).headD 0 =
    11 / 10 := rfl

/-- C4: for each of the four valid scenario names, `aplicar_escenario`
multiplies every period's central, lower and upper values by that scenario's
factor — 1.0, 0.9, 0.8, 1.1 respectively — and the input rows pass through
unchanged (projecting the output back to the base columns recovers the
input, for any factor). -/
theorem c4_factores_escenarios (pred_df : List PuntoBase) :
    (aplicar_escenario (some escenarios_definidos) pred_df "normal" =
      .ok (pred_df.map fun p =>
        { toPuntoBase := p
          yhat_adj := p.yhat * 1
          yhat_lower_adj := p.yhat_lower * 1
          yhat_upper_adj := p.yhat_upper * 1 }))
    ∧ (aplicar_escenario (some escenarios_definidos) pred_df "seco" =
      .ok (pred_df.map fun p =>
        { toPuntoBase := p
          yhat_adj := p.yhat * (9 / 10)
          yhat_lower_adj := p.yhat_lower * (9 / 10)
          yhat_upper_adj := p.yhat_upper * (9 / 10) }))
    ∧ (aplicar_escenario (some escenarios_definidos) pred_df "muy_seco" =
      .ok (pred_df.map fun p =>
        { toPuntoBase := p
          yhat_adj := p.yhat * (8 / 10)
          yhat_lower_adj := p.yhat_lower * (8 / 10)
          yhat_upper_adj := p.yhat_upper * (8 / 10) }))
    ∧ (aplicar_escenario (some escenarios_definidos) pred_df "humedo" =
      .ok (pred_df.map fun p =>
        { toPuntoBase := p
          yhat_adj := p.yhat * (11 / 10)
          yhat_lower_adj := p.yhat_lower * (11 / 10)
          yhat_upper_adj := p.yhat_upper * (11 / 10) }))
    ∧ (∀ factor : ℚ, (pred_df.map fun p =>
        ({ toPuntoBase := p
           yhat_adj := p.yhat * factor
           yhat_lower_adj := p.yhat_lower * factor
           yhat_upper_adj := p.yhat_upper * factor } : PuntoAjustado)).map
          (·.toPuntoBase) = pred_df) := by
  refine ⟨?_, ?_, ?_, ?_, ?_⟩
  · have hval : validar_escenario (some escenarios_definidos) "normal" =
      .ok true := rfl
    rw [aplicar_escenario, hval]
    simp only [factor_normal_eq]
  · have hval : validar_escenario (some escenarios_definidos) "seco" =
      .ok true := rfl
    rw [aplicar_escenario, hval]
    simp only [factor_seco_eq]
  · have hval : validar_escenario (some escenarios_definidos) "muy_seco" =
      .ok true := rfl
    rw [aplicar_escenario, hval]
    simp only [factor_muy_seco_eq]
  · have hval : validar_escenario (some escenarios_definidos) "humedo" =
      .ok true := rfl
    rw [aplicar_escenario, hval]
    simp only [factor_humedo_eq]
  · intro factor
    rw [List.map_map]
    conv_rhs => rw [show pred_df = pred_df.map id from (List.map_id _).symm]
    exact List.map_congr_left fun p _ => rfl

/-- C5: user calibration adds the constant offset uniformly. With no user
level the delta is 0 and all adjusted values pass through unchanged; with a
user level the offset `nivel - y_ultimo_real` is added to every period's
central, lower and upper values; and raising the user level by `delta`
raises every calibrated value by exactly `delta`. -/
theorem c5_calibracion_uniforme (pred_df : List PuntoAjustado)
    (y_ultimo_real nivel delta : ℚ) :
    calcular_delta y_ultimo_real none = 0
    ∧ (ajustar_por_nivel_usuario pred_df y_ultimo_real none =
      pred_df.map fun p =>
        { toPuntoAjustado := p
          yhat_final := p.yhat_adj
          yhat_lower_final := p.yhat_lower_adj
          yhat_upper_final := p.yhat_upper_adj })
    ∧ (ajustar_por_nivel_usuario pred_df y_ultimo_real (some nivel) =
      pred_df.map fun p =>
        { toPuntoAjustado := p
          yhat_final := p.yhat_adj + (nivel - y_ultimo_real)
          yhat_lower_final := p.yhat_lower_adj + (nivel - y_ultimo_real)
          yhat_upper_final := p.yhat_upper_adj + (nivel - y_ultimo_real) })
    ∧ (ajustar_por_nivel_usuario pred_df y_ultimo_real (some (nivel + delta)) =
      (ajustar_por_nivel_usuario pred_df y_ultimo_real (some nivel)).map
        fun q =>
          { q with
            yhat_final := q.yhat_final + delta
            yhat_lower_final := q.yhat_lower_final + delta
            yhat_upper_final := q.yhat_upper_final + delta }) := by
  refine ⟨rfl, ?_, ?_, ?_⟩
  · rw [ajustar_por_nivel_usuario, calcular_delta]
    exact List.map_congr_left fun p _ => by simp
  · rfl
  · rw [ajustar_por_nivel_usuario, ajustar_por_nivel_usuario, List.map_map,
      calcular_delta, calcular_delta]
    refine List.map_congr_left fun p _ => ?_
    simp only [Function.comp]
    congr 1 <;> ring

/-- C6: `validar_escenario` rejects any name outside the four defined
scenarios with the error carrying the received name, and the orchestrator
rejects horizon 0 and horizon 181 (the accepted range being 1..180) with the
out-of-range error carrying the received value. -/
theorem c6_errores_validacion (nombre : String)
    (hnombre : nombre ∉ ["normal", "seco", "muy_seco", "humedo"])
    (st : ModuleState) (hm : st.modelo_cargado = true)
    (hdf : st.df_escenarios = some escenarios_definidos)
    (nivel : Option ℚ) :
    validar_escenario (some escenarios_definidos) nombre =
      .error (.escenarioNoExiste nombre)
    ∧ predecir_escenario st 0 "normal" nivel =
      .error (.horizonteFueraDeRango 0)
    ∧ predecir_escenario st 181 "normal" nivel =
      .error (.horizonteFueraDeRango 181) := by
  have hval : validar_escenario (some escenarios_definidos) "normal" =
    .ok true := rfl
  refine ⟨?_, ?_, ?_⟩
  · simp only [validar_escenario]
    rw [show (escenarios_definidos.map (·.escenario)) =
      ["normal", "seco", "muy_seco", "humedo"] from rfl, if_neg hnombre]
  · rw [predecir_escenario, hm, hdf, hval]
    norm_num
  · rw [predecir_escenario, hm, hdf, hval]
    norm_num

/-- Witness for C6: the unknown name "foo" and the concrete initialized
state, at horizons 0 and 181. -/
theorem c6_errores_validacion_witness :
    validar_escenario (some escenarios_definidos) "foo" =
      .error (.escenarioNoExiste "foo")
    ∧ predecir_escenario estado_demo 0 "normal" none =
      .error (.horizonteFueraDeRango 0)
    ∧ predecir_escenario estado_demo 181 "normal" none =
      .error (.horizonteFueraDeRango 181) :=
  c6_errores_validacion "foo" (by decide) estado_demo rfl rfl none

/-- C8: the response's `sequia_probable` flag is true exactly when the global
risk is "ALTO" or "CRÍTICO". -/
theorem c8_sequia_probable_iff (escenario : String) (horizonte_meses : Int)
    (nivel_actual_usuario : Option ℚ) (pred_df : List PuntoClasificado)
    (riesgo_global : String) :
    (construir_respuesta_api escenario horizonte_meses nivel_actual_usuario
      pred_df riesgo_global).sequia_probable = true ↔
    riesgo_global = "ALTO" ∨ riesgo_global = "CRÍTICO" := by
  simp [construir_respuesta_api]

/-- C9: for a non-negative requested horizon, the response's monthly list has
exactly `min horizon (length of the classified sequence)` entries — the
builder truncates to the horizon even when the classified sequence is
longer. -/
theorem c9_longitud_mensual (escenario : String) (horizonte_meses : Int)
    (hh : 0 ≤ horizonte_meses) (nivel_actual_usuario : Option ℚ)
    (pred_df : List PuntoClasificado) (riesgo_global : String) :
    (construir_respuesta_api escenario horizonte_meses nivel_actual_usuario
      pred_df riesgo_global).prediccion_mensual.length =
    min horizonte_meses.toNat pred_df.length := by
  simp [construir_respuesta_api, pandasHead, hh]

/-- Witness for C9: horizon 3 against a single-row classified sequence gives
one monthly entry. -/
theorem c9_longitud_mensual_witness :
    (construir_respuesta_api "seco" 3 none [punto_clas_demo]
      "BAJO").prediccion_mensual.length =
    min (3 : Int).toNat [punto_clas_demo].length :=
  c9_longitud_mensual "seco" 3 (by norm_num) none [punto_clas_demo] "BAJO"

/-- C10: the orchestrator's checks are ordered. When the model is not loaded
every call fails with the not-initialized error, whatever scenario and
horizon; when the model is loaded but the scenario name is invalid and the
horizon is simultaneously out of range, the unknown-scenario error is raised,
not the out-of-range one. -/
theorem c10_orden_validaciones (st : ModuleState) (horizonte_meses : Int)
    (nombre : String) (nivel_actual_usuario : Option ℚ) :
    (st.modelo_cargado = false →
      predecir_escenario st horizonte_meses nombre nivel_actual_usuario =
        .error .noInicializado)
    ∧ (st.modelo_cargado = true →
      st.df_escenarios = some escenarios_definidos →
      nombre ∉ ["normal", "seco", "muy_seco", "humedo"] →
      (horizonte_meses < 1 ∨ horizonte_meses > 180) →
      predecir_escenario st horizonte_meses nombre nivel_actual_usuario =
        .error (.escenarioNoExiste nombre)) := by
  constructor
  · intro hm
    rw [predecir_escenario, hm]
    simp
  · intro hm hdf hnombre _
    have hval : validar_escenario (some escenarios_definidos) nombre =
      .error (.escenarioNoExiste nombre) := by
      simp only [validar_escenario]
      rw [show (escenarios_definidos.map (·.escenario)) =
        ["normal", "seco", "muy_seco", "humedo"] from rfl, if_neg hnombre]
    rw [predecir_escenario, hm, hdf, hval]
    simp

/-- The demo state before the model is trained. -/
def estado_sin_modelo : ModuleState :=
  { estado_demo with modelo_cargado := false }

/-- Witness for C10: with the model missing the call fails as
not-initialized; with the model loaded, scenario "foo" and horizon 0
(both invalid at once) fail with the unknown-scenario error. -/
theorem c10_orden_validaciones_witness :
    predecir_escenario estado_sin_modelo 5 "seco" none =
      .error .noInicializado
    ∧ predecir_escenario estado_demo 0 "foo" none =
      .error (.escenarioNoExiste "foo") :=
  ⟨(c10_orden_validaciones estado_sin_modelo 5 "seco" none).1 rfl,
   (c10_orden_validaciones estado_demo 0 "foo" none).2 rfl rfl (by decide)
     (Or.inl (by norm_num))⟩

/-- C7 counterexample: on the one-element historical series [650] both
percentiles equal 650, so the strict inequality
`umbral_sequia < umbral_bajo` fails. -/
theorem c7_contraejemplo :
    ¬ ((calcular_umbrales [650]).umbral_sequia <
      (calcular_umbrales [650]).umbral_bajo) := by
  norm_num [calcular_umbrales, percentil, interpolar, List.insertionSort,
    List.orderedInsert]

theorem getD_sorted_mono (s : List ℚ) (hs : List.Sorted (· ≤ ·) s)
    (a b : ℕ) (hab : a ≤ b) (hb : b < s.length) :
    s.getD a 0 ≤ s.getD b 0 := by
  have ha : a < s.length := lt_of_le_of_lt hab hb
  rw [List.getD_eq_getElem s 0 ha, List.getD_eq_getElem s 0 hb]
  rcases eq_or_lt_of_le hab with rfl | h
  · exact le_refl _
  · have := List.pairwise_iff_get.mp hs ⟨a, ha⟩ ⟨b, hb⟩ h
    simpa using this

theorem interpolar_mono (s : List ℚ) (hs : List.Sorted (· ≤ ·) s)
    (pos₁ pos₂ : ℚ) (h0 : 0 ≤ pos₁) (h12 : pos₁ ≤ pos₂)
    (h2 : pos₂ ≤ (s.length : ℚ) - 1) :
    interpolar s pos₁ ≤ interpolar s pos₂ := by
  have h02 : 0 ≤ pos₂ := le_trans h0 h12
  have h1 : pos₁ ≤ (s.length : ℚ) - 1 := le_trans h12 h2
  have hnq : (1 : ℚ) ≤ (s.length : ℚ) := by linarith
  have hn : 1 ≤ s.length := by exact_mod_cast hnq
  have hi10 : 0 ≤ ⌊pos₁⌋ := Int.floor_nonneg.mpr h0
  have hi20 : 0 ≤ ⌊pos₂⌋ := Int.floor_nonneg.mpr h02
  have hi12 : ⌊pos₁⌋ ≤ ⌊pos₂⌋ := Int.floor_le_floor h12
  have hi2n : ⌊pos₂⌋ ≤ (s.length : ℤ) - 1 := by
    have hq : ((⌊pos₂⌋ : ℚ)) ≤ (s.length : ℚ) - 1 :=
      le_trans (Int.floor_le pos₂) h2
    exact_mod_cast hq
  have hi1n : ⌊pos₁⌋ ≤ (s.length : ℤ) - 1 := le_trans hi12 hi2n
  have ha1 : ((⌊pos₁⌋.toNat : ℤ)) = ⌊pos₁⌋ := Int.toNat_of_nonneg hi10
  have ha2 : ((⌊pos₂⌋.toNat : ℤ)) = ⌊pos₂⌋ := Int.toNat_of_nonneg hi20
  have ha1n : ⌊pos₁⌋.toNat ≤ s.length - 1 := by omega
  have ha2n : ⌊pos₂⌋.toNat ≤ s.length - 1 := by omega
  have hg10 : 0 ≤ pos₁ - (⌊pos₁⌋ : ℚ) := by linarith [Int.floor_le pos₁]
  have hg11 : pos₁ - (⌊pos₁⌋ : ℚ) ≤ 1 := by
    linarith [Int.lt_floor_add_one pos₁]
  have hg20 : 0 ≤ pos₂ - (⌊pos₂⌋ : ℚ) := by linarith [Int.floor_le pos₂]
  have hg21 : pos₂ - (⌊pos₂⌋ : ℚ) ≤ 1 := by
    linarith [Int.lt_floor_add_one pos₂]
  have hlohi1 : s.getD ⌊pos₁⌋.toNat 0 ≤
      s.getD (min (⌊pos₁⌋.toNat + 1) (s.length - 1)) 0 :=
    getD_sorted_mono s hs _ _ (Nat.le_min.mpr ⟨Nat.le_succ _, ha1n⟩)
      (by omega)
  have hlohi2 : s.getD ⌊pos₂⌋.toNat 0 ≤
      s.getD (min (⌊pos₂⌋.toNat + 1) (s.length - 1)) 0 :=
    getD_sorted_mono s hs _ _ (Nat.le_min.mpr ⟨Nat.le_succ _, ha2n⟩)
      (by omega)
  show s.getD ⌊pos₁⌋.toNat 0 + (pos₁ - (⌊pos₁⌋ : ℚ)) *
      (s.getD (min (⌊pos₁⌋.toNat + 1) (s.length - 1)) 0 -
        s.getD ⌊pos₁⌋.toNat 0) ≤
    s.getD ⌊pos₂⌋.toNat 0 + (pos₂ - (⌊pos₂⌋ : ℚ)) *
      (s.getD (min (⌊pos₂⌋.toNat + 1) (s.length - 1)) 0 -
        s.getD ⌊pos₂⌋.toNat 0)
  rcases eq_or_lt_of_le hi12 with heq | hlt
  · rw [heq]
    have hgg : pos₁ - (⌊pos₂⌋ : ℚ) ≤ pos₂ - (⌊pos₂⌋ : ℚ) := by linarith
    nlinarith [hlohi2, hgg, hg20, heq ▸ hg10]
  · have hchain : s.getD (min (⌊pos₁⌋.toNat + 1) (s.length - 1)) 0 ≤
        s.getD ⌊pos₂⌋.toNat 0 := by
      apply getD_sorted_mono s hs _ _ _ (by omega)
      have : ⌊pos₁⌋.toNat + 1 ≤ ⌊pos₂⌋.toNat := by omega
      omega
    nlinarith [hlohi1, hlohi2, hchain, hg10, hg11, hg20, hg21]

theorem percentil_mono (serie : List ℚ) (hne : serie ≠ []) (q₁ q₂ : ℚ)
    (hq0 : 0 ≤ q₁) (hq12 : q₁ ≤ q₂) (hq2 : q₂ ≤ 100) :
    percentil serie q₁ ≤ percentil serie q₂ := by
  have hs : List.Sorted (· ≤ ·) (serie.insertionSort (· ≤ ·)) :=
    List.sorted_insertionSort _ _
  have hlen : (serie.insertionSort (· ≤ ·)).length = serie.length :=
    List.length_insertionSort _ _
  have hn : 1 ≤ serie.length := List.length_pos.mpr hne
  have hnq : (1 : ℚ) ≤ ((serie.insertionSort (· ≤ ·)).length : ℚ) := by
    rw [hlen]; exact_mod_cast hn
  show interpolar (serie.insertionSort (· ≤ ·))
      (q₁ / 100 * (((serie.insertionSort (· ≤ ·)).length : ℚ) - 1)) ≤
    interpolar (serie.insertionSort (· ≤ ·))
      (q₂ / 100 * (((serie.insertionSort (· ≤ ·)).length : ℚ) - 1))
  apply interpolar_mono _ hs
  · apply mul_nonneg (div_nonneg hq0 (by norm_num))
    linarith
  · apply mul_le_mul_of_nonneg_right _ (by linarith)
    exact div_le_div_of_nonneg_right hq12 (by norm_num)
  · have h1 : q₂ / 100 ≤ 1 := (div_le_one (by norm_num)).mpr hq2
    nlinarith

/-- C7 (amended): for every non-empty historical series the computed
thresholds satisfy `umbral_sequia ≤ umbral_bajo` (10th percentile at most the
25th, by monotonicity of the linear-interpolated percentile); the strict
inequality of the claim fails on constant series such as [650]. -/
theorem c7_umbrales_ordenados (serie_y : List ℚ) (hne : serie_y ≠ []) :
    (calcular_umbrales serie_y).umbral_sequia ≤
    (calcular_umbrales serie_y).umbral_bajo :=
  percentil_mono serie_y hne 10 25 (by norm_num) (by norm_num) (by norm_num)

/-- Witness for C7 at the series [650]: the hypotheses hold and the theorem
applies. -/
theorem c7_umbrales_ordenados_witness :
    (calcular_umbrales [650]).umbral_sequia ≤
    (calcular_umbrales [650]).umbral_bajo :=
  c7_umbrales_ordenados [650] (by simp)
